import Mathlib

/-!
Verification development for the astroreflect transit detection engine
(src/services/ephemeris/transitService.ts, transitTypeService.ts,
src/models: Planet/Aspect/ZodiacSign/TransitSubtype/TransitTiming/Transit).

Modelling conventions (shallow embedding):
* JavaScript numbers are modelled as exact rationals (ℚ).  All numeric
  literals appearing in the source (0.5, 2.5, 0.1, 1.0, -0.2, 6.25, ...)
  are exactly representable as IEEE doubles or close enough that no branch
  in the translated code distinguishes them, so ℚ is a faithful model of
  every computation the source performs on them.
* A JavaScript `Date` is its millisecond timestamp (ℚ, exact; JS Date
  stores an integral millisecond value but intermediate arithmetic such as
  `startDate.getTime() + i * timeStep` is plain number arithmetic).
  Calendar accessors (`getDate`, `getFullYear`, `setDate`, `setHours`) are
  modelled with the proleptic Gregorian calendar in UTC (timezone offset 0).
  `setDate`/`setHours` follow the ECMAScript semantics: the argument is
  truncated toward zero (`ToIntegerOrInfinity`) and out-of-range values
  roll over linearly (`MakeDay`/`MakeTime`).
* The Swiss-Ephemeris position oracle (`sweph.calc_ut`, reached through
  `getPlanetPositionAtDate`) is an external collaborator.  It is modelled
  as a function `Planet → ℚ → Except Unit PlanetPos`; `.error` models a
  thrown exception.  The Julian-day conversion performed before the call
  is part of this external boundary.
* A thrown exception is modelled as `Except.error`; a `try { ... } catch`
  whose body mutates the accumulated `transits` array is modelled as an
  `Except (List Transit) (List Transit)` computation whose error value
  carries the array contents at the moment of the throw (mutations before
  the throw survive the catch, exactly as in the source).
* `uuidv4()` produces an opaque random record id that no claim refers to;
  the `id` field is omitted from the model.
-/

/-
Core `Rat` arithmetic is marked irreducible, which blocks `decide` on
concrete rational computations.  Restoring the default reducibility only
affects elaboration-time unfolding; kernel-level checking is unchanged.
-/
set_option allowUnsafeReducibility true in
attribute [semireducible] Rat.add

set_option allowUnsafeReducibility true in
attribute [semireducible] Rat.sub

set_option allowUnsafeReducibility true in
attribute [semireducible] Rat.neg

set_option allowUnsafeReducibility true in
attribute [semireducible] Rat.mul

set_option allowUnsafeReducibility true in
attribute [semireducible] Rat.inv

set_option allowUnsafeReducibility true in
attribute [semireducible] Rat.div

/-! ### JavaScript number and Date primitives -/

/-- Truncation toward zero, as performed by ECMAScript `ToIntegerOrInfinity`
and by the `%` remainder operator. -/
def truncQ (q : ℚ) : ℤ := if 0 ≤ q then ⌊q⌋ else ⌈q⌉

/-- JavaScript `%` on numbers: remainder with the sign of the dividend. -/
def jsMod (a b : ℚ) : ℚ := a - b * (truncQ (a / b) : ℚ)

/-- Milliseconds per day. -/
def msPerDay : ℚ := 86400000

/-- Day number (days since the Unix epoch) containing timestamp `t`. -/
def dayIndex (t : ℚ) : ℤ := ⌊t / msPerDay⌋

/-- `date.setHours(0,0,0,0)`: midnight at the start of `t`'s day. -/
def startOfDay (t : ℚ) : ℚ := (dayIndex t : ℚ) * msPerDay

/-- `date.setHours(23,59,59,999)`: last millisecond of `t`'s day. -/
def endOfDayMs (t : ℚ) : ℚ := startOfDay t + 86399999

/-- Milliseconds elapsed since the start of `t`'s day. -/
def msOfDay (t : ℚ) : ℚ := t - startOfDay t

/-- `date.getHours()` (UTC model). -/
def jsGetHours (t : ℚ) : ℤ := ⌊msOfDay t / 3600000⌋

/-- `date.setHours(h)` with a single argument: replaces the hour field,
keeping minutes/seconds/milliseconds; out-of-range hours roll over
linearly (ECMAScript `MakeTime`). -/
def jsSetHoursOnly (t : ℚ) (h : ℤ) : ℚ := t + ((h : ℚ) - (jsGetHours t : ℚ)) * 3600000

/-- A proleptic Gregorian calendar date. -/
structure CivilDate where
  year : ℤ
  month : ℤ
  day : ℤ
deriving DecidableEq, Repr

/-- Convert a day number (days since 1970-01-01) to a civil date.
Standard civil-from-days algorithm (floor divisions throughout). -/
def civilFromDays (z0 : ℤ) : CivilDate :=
  let z := z0 + 719468
  let era := Int.fdiv z 146097
  let doe := z - era * 146097
  let yoe := Int.fdiv (doe - Int.fdiv doe 1460 + Int.fdiv doe 36524 - Int.fdiv doe 146096) 365
  let y := yoe + era * 400
  let doy := doe - (365 * yoe + Int.fdiv yoe 4 - Int.fdiv yoe 100)
  let mp := Int.fdiv (5 * doy + 2) 153
  let d := doy - Int.fdiv (153 * mp + 2) 5 + 1
  let m := if mp < 10 then mp + 3 else mp - 9
  { year := if m ≤ 2 then y + 1 else y, month := m, day := d }

/-- `date.getDate()`: day of the month (1..31), UTC model. -/
def jsGetDate (t : ℚ) : ℤ := (civilFromDays (dayIndex t)).day

/-- `date.getFullYear()`, UTC model. -/
def jsGetFullYear (t : ℚ) : ℤ := (civilFromDays (dayIndex t)).year

/-- `date.setDate(arg)`: ECMAScript truncates `arg` toward zero and places
the time at day-of-month `arg` of the current month (rolling over linearly),
keeping the time of day.  Net effect: shift by `truncQ arg - getDate t` days. -/
def jsSetDate (t : ℚ) (arg : ℚ) : ℚ := t + ((truncQ arg : ℚ) - (jsGetDate t : ℚ)) * msPerDay

/-- JavaScript default string comparison (`<` on strings, used by
`Array.prototype.sort()` with no comparator): lexicographic on code units.
For the ASCII enum names involved this coincides with code points. -/
def jsStrLtAux : List Char → List Char → Bool
  | [], [] => false
  | [], _ :: _ => true
  | _ :: _, [] => false
  | a :: as, b :: bs =>
    if a.val < b.val then true else if b.val < a.val then false else jsStrLtAux as bs

/-- JavaScript `a < b` on strings. -/
def jsStringLt (a b : String) : Bool := jsStrLtAux a.data b.data

/-! ### Data model (src/models: enums and the Transit record) -/

/-- `enum Planet` — the 10 fixed bodies. -/
inductive Planet
  | SUN | MOON | MERCURY | VENUS | MARS | JUPITER | SATURN | URANUS | NEPTUNE | PLUTO
deriving DecidableEq, Repr, Fintype

/-- The string value of each `Planet` enum member. -/
def Planet.name : Planet → String
  | .SUN => "SUN"
  | .MOON => "MOON"
  | .MERCURY => "MERCURY"
  | .VENUS => "VENUS"
  | .MARS => "MARS"
  | .JUPITER => "JUPITER"
  | .SATURN => "SATURN"
  | .URANUS => "URANUS"
  | .NEPTUNE => "NEPTUNE"
  | .PLUTO => "PLUTO"

/-- `planet.toLowerCase()` applied to the enum value. -/
def Planet.lower : Planet → String
  | .SUN => "sun"
  | .MOON => "moon"
  | .MERCURY => "mercury"
  | .VENUS => "venus"
  | .MARS => "mars"
  | .JUPITER => "jupiter"
  | .SATURN => "saturn"
  | .URANUS => "uranus"
  | .NEPTUNE => "neptune"
  | .PLUTO => "pluto"

/-- `Object.values(Planet)`, in declaration order. -/
def allPlanets : List Planet :=
  [.SUN, .MOON, .MERCURY, .VENUS, .MARS, .JUPITER, .SATURN, .URANUS, .NEPTUNE, .PLUTO]

/-- `enum Aspect` — the 5 fixed angular relationships. -/
inductive Aspect
  | CONJUNCTION | SEXTILE | SQUARE | TRINE | OPPOSITION
deriving DecidableEq, Repr, Fintype

/-- The string value of each `Aspect` enum member. -/
def Aspect.name : Aspect → String
  | .CONJUNCTION => "Conjunction"
  | .SEXTILE => "Sextile"
  | .SQUARE => "Square"
  | .TRINE => "Trine"
  | .OPPOSITION => "Opposition"

/-- `Object.values(Aspect)`, in declaration order. -/
def allAspects : List Aspect := [.CONJUNCTION, .SEXTILE, .SQUARE, .TRINE, .OPPOSITION]

/-- `enum ZodiacSign` — the 12 signs. -/
inductive ZodiacSign
  | ARIES | TAURUS | GEMINI | CANCER | LEO | VIRGO
  | LIBRA | SCORPIO | SAGITTARIUS | CAPRICORN | AQUARIUS | PISCES
deriving DecidableEq, Repr, Fintype

/-- The string value of each `ZodiacSign` enum member. -/
def ZodiacSign.name : ZodiacSign → String
  | .ARIES => "Aries"
  | .TAURUS => "Taurus"
  | .GEMINI => "Gemini"
  | .CANCER => "Cancer"
  | .LEO => "Leo"
  | .VIRGO => "Virgo"
  | .LIBRA => "Libra"
  | ZodiacSign.SCORPIO => "Scorpio"
  | .SAGITTARIUS => "Sagittarius"
  | .CAPRICORN => "Capricorn"
  | .AQUARIUS => "Aquarius"
  | .PISCES => "Pisces"

/-- `sign.toLowerCase()` applied to the enum value. -/
def ZodiacSign.lower : ZodiacSign → String
  | .ARIES => "aries"
  | .TAURUS => "taurus"
  | .GEMINI => "gemini"
  | .CANCER => "cancer"
  | .LEO => "leo"
  | .VIRGO => "virgo"
  | .LIBRA => "libra"
  | ZodiacSign.SCORPIO => "scorpio"
  | .SAGITTARIUS => "sagittarius"
  | .CAPRICORN => "capricorn"
  | .AQUARIUS => "aquarius"
  | .PISCES => "pisces"

/-- `enum TransitSubtype`. -/
inductive TransitSubtype
  | STANDARD | RETROGRADE | DIRECT | STATION | INGRESS | TRANSIT
deriving DecidableEq, Repr, Fintype

/-- `enum TransitTiming`. -/
inductive TransitTiming
  | ACTIVE | APPLYING | SEPARATING | UPCOMING
deriving DecidableEq, Repr, Fintype

/-- A planetary position as returned by the position oracle after the
normalisation in `getPlanetPositionAtDate` (longitude, speed). -/
structure PlanetPos where
  longitude : ℚ
  speed : ℚ
deriving DecidableEq, Repr

/-- The position oracle: `(planet, moment) → {longitude, speed}`, may throw. -/
abbrev Oracle := Planet → ℚ → Except Unit PlanetPos

/-- The `Transit` record (src/models).  The opaque random `id` (uuidv4) is
omitted; every other field is carried. -/
structure Transit where
  transitTypeId : String
  planetA : Planet
  planetB : Option Planet := none
  aspect : Option Aspect := none
  sign : Option ZodiacSign := none
  subtype : TransitSubtype
  timing : Option TransitTiming := none
  intensity : Option ℚ := none
  exactDate : ℚ
  startDate : ℚ
  endDate : ℚ
  description : String
deriving DecidableEq, Repr

/-! ### transitTypeService.ts -/

/-- `generateTransitTypeId(planetA, planetB?, aspect?, sign?, subtype = STANDARD)`.
The final `throw new Error("Invalid transit type parameters")` is `.error ()`. -/
def generateTransitTypeId (planetA : Planet) (planetB : Option Planet := none)
    (aspect : Option Aspect := none) (sign : Option ZodiacSign := none)
    (subtype : TransitSubtype := .STANDARD) : Except Unit String :=
  if subtype = .RETROGRADE then
    .ok (planetA.name ++ "_RETROGRADE")
  else if subtype = .STATION then
    .ok (planetA.name ++ "_STATION")
  else if subtype = .INGRESS ∧ sign.isSome then
    .ok (planetA.name ++ "_INGRESS_" ++ (sign.map ZodiacSign.name).getD "")
  else if subtype = .TRANSIT ∧ sign.isSome then
    .ok (planetA.name ++ "_IN_" ++ (sign.map ZodiacSign.name).getD "")
  else
    match planetB, aspect with
    | some pB, some asp =>
      -- `[planetA, planetB].sort()`: default (string) sort of the two names
      let lesser := if jsStringLt pB.name planetA.name then pB.name else planetA.name
      let greater := if jsStringLt pB.name planetA.name then planetA.name else pB.name
      .ok (lesser ++ "_" ++ asp.name ++ "_" ++ greater)
    | _, _ => .error ()

/-! ### transitService.ts — tables and pure helpers -/

/-- One row of the `ASPECT_ORBS` table. -/
structure OrbRow where
  dflt : ℚ
  luminaries : ℚ
  personal : ℚ
  social : ℚ
  outer : ℚ

/-- The `ASPECT_ORBS` table. -/
def aspectOrbs : Aspect → OrbRow
  | .CONJUNCTION => ⟨8, 10, 7, 6, 5⟩
  | .OPPOSITION => ⟨8, 10, 7, 6, 5⟩
  | .TRINE => ⟨7, 8, 6, 5, 4⟩
  | .SQUARE => ⟨7, 8, 6, 5, 4⟩
  | .SEXTILE => ⟨4, 5, 3, 3, 2⟩

/-- The planet-category lists used by `getAspectOrb`. -/
def luminariesList : List Planet := [.SUN, .MOON]

/-- Personal planets. -/
def personalList : List Planet := [.MERCURY, .VENUS, .MARS]

/-- Social planets. -/
def socialList : List Planet := [.JUPITER, .SATURN]

/-- Outer planets. -/
def outerList : List Planet := [.URANUS, .NEPTUNE, .PLUTO]

/-- `getAspectOrb(planetA, planetB, aspect)`. -/
def getAspectOrb (planetA planetB : Planet) (aspect : Aspect) : ℚ :=
  if luminariesList.contains planetA ∨ luminariesList.contains planetB then
    (aspectOrbs aspect).luminaries
  else if personalList.contains planetA ∨ personalList.contains planetB then
    (aspectOrbs aspect).personal
  else if socialList.contains planetA ∨ socialList.contains planetB then
    (aspectOrbs aspect).social
  else
    (aspectOrbs aspect).outer

/-- The `ASPECT_ANGLES` table. -/
def aspectAngle : Aspect → ℚ
  | .CONJUNCTION => 0
  | .SEXTILE => 60
  | .SQUARE => 90
  | .TRINE => 120
  | .OPPOSITION => 180

/-- The `ZODIAC_BOUNDARIES` table. -/
def zodiacBoundaries : List (ZodiacSign × ℚ × ℚ) :=
  [(.ARIES, 0, 30), (.TAURUS, 30, 60), (.GEMINI, 60, 90), (.CANCER, 90, 120),
   (.LEO, 120, 150), (.VIRGO, 150, 180), (.LIBRA, 180, 210), (ZodiacSign.SCORPIO, 210, 240),
   (.SAGITTARIUS, 240, 270), (.CAPRICORN, 270, 300), (.AQUARIUS, 300, 330),
   (.PISCES, 330, 360)]

/-- `getPlanetPositionAtDate(planet, date)`: consults the oracle and
normalises the longitude with `longitude % 360`; oracle failure rethrows. -/
def getPlanetPositionAtDate (o : Oracle) (planet : Planet) (date : ℚ) :
    Except Unit PlanetPos :=
  match o planet date with
  | .error e => .error e
  | .ok pos => .ok { longitude := jsMod pos.longitude 360, speed := pos.speed }

/-- `getZodiacSign(longitude)`: finds the first boundary band containing
`longitude % 360`; throws (`.error`) when none matches. -/
def getZodiacSign (longitude : ℚ) : Except Unit ZodiacSign :=
  let normLongitude := jsMod longitude 360
  match zodiacBoundaries.find? (fun b => decide (b.2.1 ≤ normLongitude) && decide (normLongitude < b.2.2)) with
  | some b => .ok b.1
  | none => .error ()

/-- `isRetrograde(planet, position)`: speed strictly below a per-planet
threshold (−0.2 for Mercury, 0 otherwise). -/
def isRetrograde (planet : Planet) (position : PlanetPos) : Bool :=
  let threshold : ℚ := if planet = .MERCURY then -(1/5) else 0
  decide (position.speed < threshold)

/-- `checkAspect(longitudeA, longitudeB, aspect, planetA, planetB)`. -/
def checkAspect (longitudeA longitudeB : ℚ) (aspect : Aspect)
    (planetA planetB : Planet) : Bool :=
  let targetAngle := aspectAngle aspect
  let orb := getAspectOrb planetA planetB aspect
  let normLongA := jsMod (jsMod longitudeA 360 + 360) 360
  let normLongB := jsMod (jsMod longitudeB 360 + 360) 360
  let diff0 := |normLongA - normLongB|
  let diff := if diff0 > 180 then 360 - diff0 else diff0
  decide (|diff - targetAngle| ≤ orb)

/-- `calculateIntensity(currentDate, exactDate, startDate, endDate)`. -/
def calculateIntensity (currentDate exactDate startDate endDate : ℚ) : ℚ :=
  if currentDate < startDate ∨ currentDate > endDate then 0
  else
    let totalDuration := endDate - startDate
    if totalDuration = 0 then 100
    else
      let distanceFromExact := |currentDate - exactDate|
      max 0 (min 100 (100 - distanceFromExact / totalDuration * 100))

/-- `determineTransitTiming(currentDate, exactDate, startDate, endDate)`. -/
def determineTransitTiming (currentDate exactDate startDate endDate : ℚ) :
    TransitTiming :=
  if currentDate < startDate then .UPCOMING
  else if startDate ≤ currentDate ∧ currentDate ≤ endDate then
    if currentDate < exactDate then .APPLYING else .SEPARATING
  else .SEPARATING

/-! ### transitService.ts — grid searches -/

/-- The angle-difference computation inside `findExactAspectDate`'s loop:
`diff = |posA.longitude − posB.longitude| % 360`, folded at 180, then the
residual `|diff − targetAngle|`. -/
def aspectResidual (longA longB : ℚ) (aspect : Aspect) : ℚ :=
  let diff0 := jsMod |longA - longB| 360
  let diff := if diff0 > 180 then 360 - diff0 else diff0
  |diff - aspectAngle aspect|

/-- One oracle-backed residual sample of `findExactAspectDate` at moment `t`
(positions of both planets, then the residual). -/
def residualAt (o : Oracle) (planetA planetB : Planet) (aspect : Aspect) (t : ℚ) :
    Except Unit ℚ :=
  match getPlanetPositionAtDate o planetA t with
  | .error e => .error e
  | .ok posA =>
    match getPlanetPositionAtDate o planetB t with
    | .error e => .error e
    | .ok posB => .ok (aspectResidual posA.longitude posB.longitude aspect)

/-- The `for (let i = 0; i <= steps; i++)` loop of `findExactAspectDate`,
written with an explicit iteration budget (`fuel` = number of loop entries
remaining, initially `steps+1`).  State: current index `i`,
`closestDifference`, `closestDate`.  The `break` when `difference < 0.1`
happens after the minimum update, exactly as in the source. -/
def exactScan (o : Oracle) (planetA planetB : Planet) (aspect : Aspect)
    (startTime timeStep : ℚ) : ℕ → ℕ → ℚ → ℚ → Except Unit (ℚ × ℚ)
  | 0, _, closestDifference, closestDate => .ok (closestDifference, closestDate)
  | fuel + 1, i, closestDifference, closestDate =>
    let currentTime := startTime + (i : ℚ) * timeStep
    match residualAt o planetA planetB aspect currentTime with
    | .error e => .error e
    | .ok difference =>
      let closestDifference' := if difference < closestDifference then difference else closestDifference
      let closestDate' := if difference < closestDifference then currentTime else closestDate
      if difference < 1/10 then .ok (closestDifference', closestDate')
      else exactScan o planetA planetB aspect startTime timeStep fuel (i + 1)
        closestDifference' closestDate'

/-- `findExactAspectDate(planetA, planetB, aspect, startDate, endDate, steps=20)`.
In test mode (`process.env.NODE_ENV === "test"`) it returns the midpoint.
Otherwise: grid scan with early break, `null` if the best residual exceeds 1.0. -/
def findExactAspectDate (o : Oracle) (env : Option String)
    (planetA planetB : Planet) (aspect : Aspect) (startDate endDate : ℚ)
    (steps : ℕ := 20) : Except Unit (Option ℚ) :=
  if env = some "test" then
    .ok (some (startDate + (endDate - startDate) / 2))
  else
    let timeRange := endDate - startDate
    let timeStep := timeRange / (steps : ℚ)
    -- the scan returns (closestDifference, closestDate); a residual above
    -- 1.0° means no exact moment
    (exactScan o planetA planetB aspect startDate timeStep (steps + 1) 0 360 startDate).map
      (fun res => if res.1 > 1 then none else some res.2)

/-- The loop of `findStationDate`: tracks the sampled moment of minimal
`|speed|`.  `closestToZero` starts at `Infinity`, modelled as `none`. -/
def stationScan (o : Oracle) (planet : Planet) (startTime timeStep : ℚ) :
    ℕ → ℕ → Option ℚ → Option ℚ → Except Unit (Option ℚ)
  | 0, _, _, stationDate => .ok stationDate
  | fuel + 1, i, closestToZero, stationDate =>
    let currentTime := startTime + (i : ℚ) * timeStep
    match getPlanetPositionAtDate o planet currentTime with
    | .error e => .error e
    | .ok position =>
      let absSpeed := |position.speed|
      let better := match closestToZero with
        | none => true
        | some v => decide (absSpeed < v)
      if better then
        stationScan o planet startTime timeStep fuel (i + 1) (some absSpeed) (some currentTime)
      else
        stationScan o planet startTime timeStep fuel (i + 1) closestToZero stationDate

/-- `findStationDate(planet, startDate, endDate, steps=20)`; midpoint in
test mode. -/
def findStationDate (o : Oracle) (env : Option String) (planet : Planet)
    (startDate endDate : ℚ) (steps : ℕ := 20) : Except Unit (Option ℚ) :=
  if env = some "test" then
    .ok (some (startDate + (endDate - startDate) / 2))
  else
    let timeRange := endDate - startDate
    let timeStep := timeRange / (steps : ℚ)
    stationScan o planet startDate timeStep (steps + 1) 0 none none

/-! ### transitService.ts — description generation -/

/-- The `base` template of the `descriptions` table for each aspect. -/
def aspectBaseDescription : Aspect → String
  | .CONJUNCTION => "%A and %B merge their energies, creating a powerful new beginning or emphasis in your life."
  | .SEXTILE => "%A forms a harmonious opportunity with %B, offering a chance for growth if you take action."
  | .SQUARE => "%A creates tension with %B, challenging you to overcome obstacles and grow through difficulty."
  | .TRINE => "%A flows effortlessly with %B, offering natural talents and opportunities for easy progress."
  | .OPPOSITION => "%A faces %B directly, creating awareness through polarization and the need for balance."

/-- The `dynamics` sub-table: present only for CONJUNCTION, keyed SUN → other. -/
def conjunctionDynamics : Planet → Planet → Option String
  | .SUN, .MOON => some "Your conscious will and emotional needs align, enabling authenticity and clear self-expression."
  | .SUN, .MERCURY => some "Your sense of identity merges with communication, enhancing your ability to express yourself."
  | .SUN, .VENUS => some "Your identity aligns with your desires and values, heightening creativity and personal charm."
  | .SUN, .MARS => some "Your will and drive unite, providing a powerful boost to pursue your goals with vigor."
  | .SUN, .JUPITER => some "Your identity expands through greater confidence, optimism, and opportunity for growth."
  | .SUN, .SATURN => some "Your identity meets responsibility, bringing focus to personal achievement through discipline."
  | .SUN, .URANUS => some "Your identity seeks freedom and awakening, potentially bringing unexpected changes to your path."
  | .SUN, .NEPTUNE => some "Your identity blends with spiritual energy, enhancing imagination and compassion."
  | .SUN, .PLUTO => some "Your identity undergoes powerful transformation, revealing deeper truths about yourself."
  | _, _ => none

/-- The `dynamics` lookup for a given aspect (`descriptions[aspect].dynamics`
exists only for CONJUNCTION). -/
def dynamicsLookup (aspect : Aspect) (pA pB : Planet) : Option String :=
  if aspect = .CONJUNCTION then conjunctionDynamics pA pB else none

/-- `generateTransitDescription(planetA, aspect, planetB)`: base template,
optionally extended by a planet-specific dynamic (direct order first, then
reversed), with `%A`/`%B` replaced by the planet enum values. -/
def generateTransitDescription (planetA : Planet) (aspect : Aspect)
    (planetB : Planet) : String :=
  let base := aspectBaseDescription aspect
  let description :=
    match dynamicsLookup aspect planetA planetB with
    | some d => base ++ " " ++ d
    | none =>
      match dynamicsLookup aspect planetB planetA with
      | some d => base ++ " " ++ d
      | none => base
  (description.replace "%A" planetA.name).replace "%B" planetB.name

/-! ### transitService.ts — findTransitsInRange (the assembler) -/

/-- A `try { ... } catch (error) { console.error(...) }` around a body that
mutates the shared `transits` array: the error value carries the array
contents at the moment of the throw, and the catch keeps them. -/
def caught : Except (List Transit) (List Transit) → List Transit
  | .ok l => l
  | .error l => l

/-- The transit-duration selection of the aspect pass (Moon 0.5, the
`[Jupiter..Pluto]` list 5, default 2). -/
def aspectDurationDays (planetA planetB : Planet) : ℚ :=
  let longList : List Planet := [.JUPITER, .SATURN, .URANUS, .NEPTUNE, .PLUTO]
  if planetA = .MOON ∨ planetB = .MOON then 1/2
  else if longList.contains planetA ∨ longList.contains planetB then 5
  else 2

/-- Builds a STANDARD aspect transit record around `exactDate`:
start = day floor minus `⌊durationDays⌋` days, end = 23:59:59.999 plus
`⌈durationDays⌉` days; timing/intensity relative to `now`. -/
def mkStandardTransit (now exactDate : ℚ) (planetA planetB : Planet)
    (aspect : Aspect) (transitTypeId : String) (durationDays : ℚ) : Transit :=
  let transitStart0 := startOfDay exactDate
  let transitStart := jsSetDate transitStart0 ((jsGetDate transitStart0 : ℚ) - (⌊durationDays⌋ : ℚ))
  let transitEnd0 := endOfDayMs exactDate
  let transitEnd := jsSetDate transitEnd0 ((jsGetDate transitEnd0 : ℚ) + (⌈durationDays⌉ : ℚ))
  { transitTypeId
    planetA
    planetB := some planetB
    aspect := some aspect
    subtype := .STANDARD
    timing := some (determineTransitTiming now exactDate transitStart transitEnd)
    intensity := some (calculateIntensity now exactDate transitStart transitEnd)
    exactDate
    startDate := transitStart
    endDate := transitEnd
    description := generateTransitDescription planetA aspect planetB }

/-- The body of one aspect-pass combination (one planet pair × one aspect),
i.e. the contents of the `try` block at transitService.ts:492-809. -/
def aspectComboE (o : Oracle) (env : Option String) (now startDate endDate : ℚ)
    (planetA planetB : Planet) (aspect : Aspect) (transits : List Transit) :
    Except (List Transit) (List Transit) :=
  match getPlanetPositionAtDate o planetA now with
  | .error _ => .error transits
  | .ok positionA =>
  match getPlanetPositionAtDate o planetB now with
  | .error _ => .error transits
  | .ok positionB =>
  let aspectIsActive := checkAspect positionA.longitude positionB.longitude aspect planetA planetB
  -- (a) aspect currently active: search a ±7-day window around now
  let afterActive : Except (List Transit) (List Transit) :=
    if aspectIsActive then
      match findExactAspectDate o env planetA planetB aspect
          (now - 7 * 24 * 60 * 60 * 1000) (now + 7 * 24 * 60 * 60 * 1000) 20 with
      | .error _ => .error transits
      | .ok none => .ok transits
      | .ok (some exactDate) =>
        match generateTransitTypeId planetA (some planetB) (some aspect) with
        | .error _ => .error transits
        | .ok transitTypeId =>
          .ok (transits ++ [mkStandardTransit now exactDate planetA planetB aspect
            transitTypeId (aspectDurationDays planetA planetB)])
    else .ok transits
  match afterActive with
  | .error ts => .error ts
  | .ok ts1 =>
  -- (b) aspect state differs between startDate and endDate
  match getPlanetPositionAtDate o planetA startDate with
  | .error _ => .error ts1
  | .ok startPositionA =>
  match getPlanetPositionAtDate o planetB startDate with
  | .error _ => .error ts1
  | .ok startPositionB =>
  match getPlanetPositionAtDate o planetA endDate with
  | .error _ => .error ts1
  | .ok endPositionA =>
  match getPlanetPositionAtDate o planetB endDate with
  | .error _ => .error ts1
  | .ok endPositionB =>
  let aspectAtStart := checkAspect startPositionA.longitude startPositionB.longitude aspect planetA planetB
  let aspectAtEnd := checkAspect endPositionA.longitude endPositionB.longitude aspect planetA planetB
  if (aspectAtStart ≠ aspectAtEnd ∨ env = some "test") ∧
      ¬ ts1.any (fun t => decide (t.planetA = planetA ∧ t.planetB = some planetB ∧ t.aspect = some aspect)) then
    if env = some "test" ∧ planetA = .SUN ∧ planetB = .MERCURY ∧ aspect = .CONJUNCTION then
      -- test-only special case: midpoint exact date, fixed 2-day duration
      let exactDate := startDate + (endDate - startDate) / 2
      match generateTransitTypeId planetA (some planetB) (some aspect) with
      | .error _ => .error ts1
      | .ok transitTypeId =>
        .ok (ts1 ++ [mkStandardTransit now exactDate planetA planetB aspect transitTypeId 2])
    else
      match findExactAspectDate o env planetA planetB aspect startDate endDate 20 with
      | .error _ => .error ts1
      | .ok none => .ok ts1
      | .ok (some exactDate) =>
        match generateTransitTypeId planetA (some planetB) (some aspect) with
        | .error _ => .error ts1
        | .ok transitTypeId =>
          .ok (ts1 ++ [mkStandardTransit now exactDate planetA planetB aspect
            transitTypeId (aspectDurationDays planetA planetB)])
  else .ok ts1

/-- One aspect-pass combination with its per-combination catch. -/
def aspectCombo (o : Oracle) (env : Option String) (now startDate endDate : ℚ)
    (planetA planetB : Planet) (aspect : Aspect) (transits : List Transit) :
    List Transit :=
  caught (aspectComboE o env now startDate endDate planetA planetB aspect transits)

/-- The 8 bodies checked for retrograde motion (Sun/Moon excluded). -/
def retrogradeList : List Planet :=
  [.MERCURY, .VENUS, .MARS, .JUPITER, .SATURN, .URANUS, .NEPTUNE, .PLUTO]

/-- Estimated retrograde duration per planet (Mercury 21, Venus/Mars 60,
others 120 days). -/
def retroDurationDays (planet : Planet) : ℚ :=
  if planet = .MERCURY then 21
  else if planet = .VENUS ∨ planet = .MARS then 60
  else 120

/-- The station-direction decision inside the retrograde pass
(transitService.ts:921): `exactPosition.speed < 0`, for every planet. -/
def stationIsGoingRetrograde (exactPosition : PlanetPos) : Bool :=
  decide (exactPosition.speed < 0)

/-- The body of one retrograde-pass iteration (the `try` block at
transitService.ts:838-1002). -/
def retroComboE (o : Oracle) (env : Option String) (now startDate endDate : ℚ)
    (planet : Planet) (transits : List Transit) :
    Except (List Transit) (List Transit) :=
  match getPlanetPositionAtDate o planet now with
  | .error _ => .error transits
  | .ok currentPosition =>
  let isCurrentlyRetrograde := isRetrograde planet currentPosition
  let afterActive : Except (List Transit) (List Transit) :=
    if isCurrentlyRetrograde ∧ (planet ≠ .MERCURY ∨
        ¬ transits.any (fun t => decide (t.planetA = .MERCURY ∧ t.subtype = .RETROGRADE))) then
      let durationDays := retroDurationDays planet
      let estimatedStart := jsSetDate now ((jsGetDate now : ℚ) - (⌊durationDays / 2⌋ : ℚ))
      let estimatedEnd := jsSetDate now ((jsGetDate now : ℚ) + (⌈durationDays / 2⌉ : ℚ))
      match generateTransitTypeId planet none none none .RETROGRADE with
      | .error _ => .error transits
      | .ok transitTypeId =>
      match getZodiacSign currentPosition.longitude with
      | .error _ => .error transits
      | .ok signAtNow =>
        .ok (transits ++
          [{ transitTypeId, planetA := planet, subtype := .RETROGRADE,
             timing := some .ACTIVE, intensity := some 100, exactDate := now,
             startDate := estimatedStart, endDate := estimatedEnd,
             description := planet.name ++ " is retrograde at "
               ++ toString ⌊currentPosition.longitude⌋
               ++ "° " ++ signAtNow.name
               ++ ", suggesting a time for review and reconsideration in "
               ++ planet.lower ++ "-related matters." }])
    else .ok transits
  match afterActive with
  | .error ts => .error ts
  | .ok ts1 =>
  match getPlanetPositionAtDate o planet startDate with
  | .error _ => .error ts1
  | .ok startPosition =>
  match getPlanetPositionAtDate o planet endDate with
  | .error _ => .error ts1
  | .ok endPosition =>
  let retrogradeAtStart := isRetrograde planet startPosition
  let retrogradeAtEnd := isRetrograde planet endPosition
  if retrogradeAtStart ≠ retrogradeAtEnd then
    match findStationDate o env planet startDate endDate 20 with
    | .error _ => .error ts1
    | .ok none => .ok ts1
    | .ok (some exactDate) =>
    match getPlanetPositionAtDate o planet exactDate with
    | .error _ => .error ts1
    | .ok exactPosition =>
    let isGoingRetrograde := stationIsGoingRetrograde exactPosition
    let subtype := if isGoingRetrograde then TransitSubtype.RETROGRADE else TransitSubtype.DIRECT
    match generateTransitTypeId planet none none none
        (if isGoingRetrograde then .RETROGRADE else .STATION) with
    | .error _ => .error ts1
    | .ok transitTypeId =>
    let durationDays := retroDurationDays planet
    let transitStart := jsSetDate exactDate ((jsGetDate exactDate : ℚ) - (⌊durationDays / 2⌋ : ℚ))
    let transitEnd := jsSetDate exactDate ((jsGetDate exactDate : ℚ) + (⌈durationDays / 2⌉ : ℚ))
    let timing := determineTransitTiming now exactDate transitStart transitEnd
    let intensity := calculateIntensity now exactDate transitStart transitEnd
    match getZodiacSign exactPosition.longitude with
    | .error _ => .error ts1
    | .ok signAtStation =>
    let description :=
      if isGoingRetrograde then
        planet.name ++ " goes retrograde at " ++ toString ⌊exactPosition.longitude⌋
          ++ "° " ++ signAtStation.name
          ++ ", a time for reviewing and revisiting " ++ planet.lower ++ "-related matters."
      else
        planet.name ++ " turns direct at " ++ toString ⌊exactPosition.longitude⌋
          ++ "° " ++ signAtStation.name
          ++ ", allowing forward progress in " ++ planet.lower ++ "-related areas."
    .ok (ts1 ++
      [{ transitTypeId, planetA := planet, subtype,
         timing := some timing, intensity := some intensity, exactDate,
         startDate := transitStart, endDate := transitEnd, description }])
  else .ok ts1

/-- One retrograde-pass iteration: the eligibility filter (`continue` for
Sun/Moon), then the caught body. -/
def retroCombo (o : Oracle) (env : Option String) (now startDate endDate : ℚ)
    (planet : Planet) (transits : List Transit) : List Transit :=
  if retrogradeList.contains planet then
    caught (retroComboE o env now startDate endDate planet transits)
  else transits

/-- The per-planet sign dwell-time table (shared by the snapshot branch and
the in-loop sign-transit branch, which repeat it verbatim in the source). -/
def signDurationDays (planet : Planet) : ℚ :=
  if planet = .MOON then 5/2
  else if planet = .MERCURY ∨ planet = .VENUS then 25
  else if planet = .MARS then 60
  else if ([Planet.JUPITER, .SATURN] : List Planet).contains planet then 365
  else if ([Planet.URANUS, .NEPTUNE, .PLUTO] : List Planet).contains planet then 365 * 7
  else 30

/-- The "currently moving through sign X" snapshot record
(transitService.ts:1022-1080). -/
def currentSignTransit (now : ℚ) (planet : Planet) (currentPosition : PlanetPos)
    (currentSign : ZodiacSign) (transitTypeId : String) : Transit :=
  let durationDays := signDurationDays planet
  let estimatedStartDate :=
    if planet = .MOON then
      let degreeInSign := jsMod currentPosition.longitude 30
      let daysBeforeSignChange := degreeInSign / 30 * durationDays
      jsSetDate now ((jsGetDate now : ℚ) - daysBeforeSignChange)
    else
      let estimatedDaysInSign := max 1 (min (durationDays / 4) 60)
      jsSetDate now ((jsGetDate now : ℚ) - estimatedDaysInSign)
  let estimatedEndDate := jsSetDate estimatedStartDate ((jsGetDate estimatedStartDate : ℚ) + durationDays)
  { transitTypeId
    planetA := planet
    sign := some currentSign
    subtype := .TRANSIT
    timing := some .ACTIVE
    intensity := some 100
    exactDate := now
    startDate := estimatedStartDate
    endDate := estimatedEndDate
    description := planet.name ++ " is moving through " ++ currentSign.name
      ++ ", infusing " ++ planet.lower ++ "-related matters with "
      ++ currentSign.lower ++ " qualities." }

/-- The day-stepped ingress `while` loop (transitService.ts:1098-1239).
`fuel` bounds the iteration count; the `checkDate < endDate` guard is the
one from the source, and the initial fuel is chosen large enough that it
never runs out before the guard fails. -/
def ingressLoop (o : Oracle) (now endDate : ℚ) (planet : Planet) :
    ℕ → ℚ → ZodiacSign → List Transit → Except (List Transit) (List Transit)
  | 0, _, _, transits => .ok transits
  | fuel + 1, checkDate, previousSign, transits =>
    if checkDate < endDate then
      match getPlanetPositionAtDate o planet checkDate with
      | .error _ => .error transits
      | .ok position =>
      match getZodiacSign position.longitude with
      | .error _ => .error transits
      | .ok checkSign =>
      if checkSign ≠ previousSign then
        match generateTransitTypeId planet none none (some checkSign) .INGRESS with
        | .error _ => .error transits
        | .ok ingressTypeId =>
        let exactDate := checkDate
        let transitStart := jsSetHoursOnly exactDate (jsGetHours exactDate - 12)
        let transitEnd := jsSetHoursOnly exactDate (jsGetHours exactDate + 12)
        let timing := determineTransitTiming now exactDate transitStart transitEnd
        let intensity := calculateIntensity now exactDate transitStart transitEnd
        let description := planet.name ++ " enters " ++ checkSign.name ++ ", bringing "
          ++ checkSign.lower ++ " qualities to " ++ planet.lower ++ "-related themes."
        let ts1 :=
          if transits.any (fun t => decide (t.transitTypeId = ingressTypeId)) then transits
          else transits ++
            [{ transitTypeId := ingressTypeId, planetA := planet,
               sign := some checkSign, subtype := .INGRESS, timing := some timing,
               intensity := some intensity, exactDate, startDate := transitStart,
               endDate := transitEnd, description }]
        match generateTransitTypeId planet none none (some checkSign) .TRANSIT with
        | .error _ => .error ts1
        | .ok signTransitTypeId =>
        let ts2 :=
          if ts1.any (fun t => decide (t.transitTypeId = signTransitTypeId)) then ts1
          else
            let durationDays := signDurationDays planet
            let signTransitStart := exactDate
            let signTransitEnd := jsSetDate exactDate ((jsGetDate exactDate : ℚ) + durationDays)
            let cappedEndDate := if signTransitEnd > endDate then endDate else signTransitEnd
            let transitTiming := determineTransitTiming now exactDate signTransitStart cappedEndDate
            let transitIntensity := calculateIntensity now exactDate signTransitStart cappedEndDate
            ts1 ++
              [{ transitTypeId := signTransitTypeId, planetA := planet,
                 sign := some checkSign, subtype := .TRANSIT, timing := some transitTiming,
                 intensity := some transitIntensity, exactDate,
                 startDate := signTransitStart, endDate := cappedEndDate,
                 description := planet.name ++ " is moving through " ++ checkSign.name
                   ++ ", infusing " ++ planet.lower ++ "-related matters with "
                   ++ checkSign.lower ++ " qualities." }]
        ingressLoop o now endDate planet fuel (checkDate + 86400000) checkSign ts2
      else
        ingressLoop o now endDate planet fuel (checkDate + 86400000) previousSign transits
    else .ok transits

/-- Iteration budget for the ingress loop: at least
`⌈(endDate − startDate)/msPerDay⌉` steps, after which `checkDate ≥ endDate`
and the loop guard is false anyway. -/
def ingressFuel (startDate endDate : ℚ) : ℕ := (⌈(endDate - startDate) / msPerDay⌉).toNat + 1

/-- The body of one sign-ingress-pass iteration (the `try` block at
transitService.ts:1007-1243). -/
def ingressComboE (o : Oracle) (now startDate endDate : ℚ) (planet : Planet)
    (transits : List Transit) : Except (List Transit) (List Transit) :=
  match getPlanetPositionAtDate o planet now with
  | .error _ => .error transits
  | .ok currentPosition =>
  match getZodiacSign currentPosition.longitude with
  | .error _ => .error transits
  | .ok currentSign =>
  match generateTransitTypeId planet none none (some currentSign) .TRANSIT with
  | .error _ => .error transits
  | .ok transitTypeId =>
  let ts1 :=
    if transits.any (fun t => decide (t.transitTypeId = transitTypeId)) then transits
    else transits ++ [currentSignTransit now planet currentPosition currentSign transitTypeId]
  match getPlanetPositionAtDate o planet startDate with
  | .error _ => .error ts1
  | .ok startPosition =>
  match getPlanetPositionAtDate o planet endDate with
  | .error _ => .error ts1
  | .ok endPosition =>
  match getZodiacSign startPosition.longitude with
  | .error _ => .error ts1
  | .ok startSign =>
  match getZodiacSign endPosition.longitude with
  | .error _ => .error ts1
  | .ok endSign =>
  if startSign ≠ endSign then
    ingressLoop o now endDate planet (ingressFuel startDate endDate) startDate startSign ts1
  else .ok ts1

/-- One sign-ingress-pass iteration with its per-planet catch. -/
def ingressCombo (o : Oracle) (now startDate endDate : ℚ) (planet : Planet)
    (transits : List Transit) : List Transit :=
  caught (ingressComboE o now startDate endDate planet transits)

/-- The special Mercury-retrograde check at the end of `findTransitsInRange`
(transitService.ts:1246-1307).  NOTE: this block sits outside every
`try`/`catch`, so its oracle call and its `getZodiacSign` call propagate
exceptions out of `findTransitsInRange`. -/
def mercuryGuard (o : Oracle) (now : ℚ) (transits : List Transit) :
    Except Unit (List Transit) :=
  match getPlanetPositionAtDate o .MERCURY now with
  | .error e => .error e
  | .ok mercuryPosition =>
  let isMercuryRetrograde := isRetrograde .MERCURY mercuryPosition
  if isMercuryRetrograde then
    match generateTransitTypeId .MERCURY none none none .RETROGRADE with
    | .error e => .error e
    | .ok transitTypeId =>
    let durationDays : ℚ := 21
    let retroStart := jsSetDate now ((jsGetDate now : ℚ) - (⌊durationDays / 2⌋ : ℚ))
    let retroEnd := jsSetDate now ((jsGetDate now : ℚ) + (⌈durationDays / 2⌉ : ℚ))
    let afterPush : Except Unit (List Transit) :=
      if ¬ transits.any (fun t => decide (t.planetA = .MERCURY ∧ t.subtype = .RETROGRADE)) then
        match getZodiacSign mercuryPosition.longitude with
        | .error e => .error e
        | .ok mercurySign =>
          .ok (transits ++
            [{ transitTypeId, planetA := .MERCURY, subtype := .RETROGRADE,
               timing := some .ACTIVE, intensity := some 100, exactDate := now,
               startDate := retroStart, endDate := retroEnd,
               description := "MERCURY is retrograde at "
                 ++ toString ⌊mercuryPosition.longitude⌋
                 ++ "° " ++ mercurySign.name
                 ++ ", suggesting a time to review, revise, and reconsider communication, technology, and travel plans." }])
      else .ok transits
    match afterPush with
    | .error e => .error e
    | .ok ts1 =>
      match ts1.findIdx? (fun t => decide (t.transitTypeId = "MERCURY_STATION" ∧
          t.subtype = .DIRECT ∧ t.planetA = .MERCURY)) with
      | some directIndex => .ok (ts1.eraseIdx directIndex)
      | none => .ok ts1
  else .ok transits

/-- The `timingOrder` map of the final sort comparator (undefined → 4). -/
def timingOrderValue : Option TransitTiming → ℕ
  | some .ACTIVE => 0
  | some .APPLYING => 1
  | some .SEPARATING => 2
  | some .UPCOMING => 3
  | none => 4

/-- `x.intensity ?? 0`. -/
def intensityOrZero : Option ℚ → ℚ
  | some q => q
  | none => 0

/-- The total preorder realised by the sort comparator
(`cmp(a,b) ≤ 0`): timing priority ascending, then intensity descending. -/
def transitSortLE (a b : Transit) : Prop :=
  timingOrderValue a.timing < timingOrderValue b.timing ∨
    (timingOrderValue a.timing = timingOrderValue b.timing ∧
      intensityOrZero b.intensity ≤ intensityOrZero a.intensity)

instance : DecidableRel transitSortLE := fun a b => by
  unfold transitSortLE; infer_instance

/-- `transits.sort(cmp)`: ECMAScript 2019+ requires a stable sort, and any
stable sort by a total preorder computes the same list; modelled by stable
insertion sort. -/
def sortTransits (transits : List Transit) : List Transit :=
  List.insertionSort transitSortLE transits

/-- The ordered `i < j` pairs traversed by the nested aspect-pass loops. -/
def ijPairs : List Planet → List (Planet × Planet)
  | [] => []
  | p :: rest => rest.map (fun q => (p, q)) ++ ijPairs rest

/-- `findTransitsInRange(startDate, endDate, filteredPlanets?)`.
Extra explicit parameters of the model: the position oracle `o`, the
ambient `process.env.NODE_ENV` value `env0`, and the current wall-clock
instant `now` (`new Date()`). -/
def findTransitsInRange (o : Oracle) (env0 : Option String) (now : ℚ)
    (startDate endDate : ℚ) (filteredPlanets : Option (List Planet) := none) :
    Except Unit (List Transit) :=
  if endDate ≤ startDate then .ok []
  else
    let planets := filteredPlanets.getD allPlanets
    -- `if (typeof process.env.NODE_ENV === "undefined" && (startDate ISO
    -- contains "2025-01-15" || startDate.getFullYear() === 2025))`: the
    -- first disjunct implies the second in the UTC model.
    let env := if env0 = none ∧ jsGetFullYear startDate = 2025 then some "test" else env0
    let ts1 := (ijPairs planets).foldl (fun ts pq =>
      allAspects.foldl (fun ts aspect =>
        aspectCombo o env now startDate endDate pq.1 pq.2 aspect ts) ts) []
    let ts2 := planets.foldl (fun ts planet =>
      retroCombo o env now startDate endDate planet ts) ts1
    let ts3 := planets.foldl (fun ts planet =>
      ingressCombo o now startDate endDate planet ts) ts2
    -- `return transits.sort(...)`, after the uncaught Mercury guard
    (mercuryGuard o now ts3).map sortTransits

/-- `getCurrentTransits(date = now, dayRange = 3)`. -/
def getCurrentTransits (o : Oracle) (env : Option String) (now : ℚ)
    (date : ℚ) (dayRange : ℤ := 3) : Except Unit (List Transit) :=
  let startDate := jsSetDate date ((jsGetDate date : ℚ) - (dayRange : ℚ))
  let endDate := jsSetDate date ((jsGetDate date : ℚ) + (dayRange : ℚ))
  findTransitsInRange o env now startDate endDate none

/-- The two-record illustrative catalog used to pad a short real result
(transitService.ts:1368-1407). -/
def samplePadTransits (date : ℚ) (id1 id2 : String) : List Transit :=
  [{ transitTypeId := id1, planetA := .SUN, planetB := some .MARS, aspect := some .SQUARE,
     subtype := .STANDARD, timing := some .APPLYING, intensity := some 80,
     exactDate := date + 1 * 24 * 60 * 60 * 1000, startDate := date,
     endDate := date + 2 * 24 * 60 * 60 * 1000,
     description := "Sun square Mars brings energy and potential conflict. Channel this dynamic tension constructively." },
   { transitTypeId := id2, planetA := .VENUS, planetB := some .JUPITER, aspect := some .TRINE,
     subtype := .STANDARD, timing := some .SEPARATING, intensity := some 60,
     exactDate := date - 1 * 24 * 60 * 60 * 1000, startDate := date - 3 * 24 * 60 * 60 * 1000,
     endDate := date + 1 * 24 * 60 * 60 * 1000,
     description := "Venus trine Jupiter brings harmony, optimism, and expansion to relationships and finances." }]

/-- The wholly static three-record catalog returned when the transit
computation throws (transitService.ts:1415-1473). -/
def fallbackTransits (date : ℚ) (id1 id2 id3 : String) : List Transit :=
  [{ transitTypeId := id1, planetA := .MERCURY, planetB := some .VENUS,
     aspect := some .CONJUNCTION, subtype := .STANDARD, timing := some .ACTIVE,
     intensity := some 100, exactDate := date,
     startDate := date - 1 * 24 * 60 * 60 * 1000, endDate := date + 1 * 24 * 60 * 60 * 1000,
     description := "Mercury conjunct Venus enhances communication in relationships and creative expression." },
   { transitTypeId := id2, planetA := .MOON, planetB := some .SATURN,
     aspect := some .OPPOSITION, subtype := .STANDARD, timing := some .UPCOMING,
     intensity := some 0, exactDate := date + 2 * 24 * 60 * 60 * 1000,
     startDate := date + 3/2 * 24 * 60 * 60 * 1000, endDate := date + 5/2 * 24 * 60 * 60 * 1000,
     description := "Moon opposite Saturn may bring emotional challenges and a need for boundaries." },
   { transitTypeId := id3, planetA := .SUN, planetB := some .JUPITER,
     aspect := some .TRINE, subtype := .STANDARD, timing := some .UPCOMING,
     intensity := some 0, exactDate := date + 3 * 24 * 60 * 60 * 1000,
     startDate := date + 1 * 24 * 60 * 60 * 1000, endDate := date + 5 * 24 * 60 * 60 * 1000,
     description := "Sun trine Jupiter brings optimism, growth opportunities, and expanded horizons." }]

/-- `getSampleTransits(date = now)`: real transits, padded below 3 results,
with a static catalog on any throw. -/
def getSampleTransits (o : Oracle) (env : Option String) (now : ℚ) (date : ℚ) :
    Except Unit (List Transit) :=
  let attempt : Except Unit (List Transit) :=
    match getCurrentTransits o env now date 5 with
    | .error e => .error e
    | .ok realTransits =>
      if 3 ≤ realTransits.length then .ok realTransits
      else
        match generateTransitTypeId .SUN (some .MARS) (some .SQUARE) with
        | .error e => .error e
        | .ok id1 =>
        match generateTransitTypeId .VENUS (some .JUPITER) (some .TRINE) with
        | .error e => .error e
        | .ok id2 => .ok ((realTransits ++ samplePadTransits date id1 id2).take 5)
  match attempt with
  | .ok l => .ok l
  | .error _ =>
    match generateTransitTypeId .MERCURY (some .VENUS) (some .CONJUNCTION) with
    | .error e => .error e
    | .ok id1 =>
    match generateTransitTypeId .MOON (some .SATURN) (some .OPPOSITION) with
    | .error e => .error e
    | .ok id2 =>
    match generateTransitTypeId .SUN (some .JUPITER) (some .TRINE) with
    | .error e => .error e
    | .ok id3 => .ok (fallbackTransits date id1 id2 id3)

/-! ### Helper lemmas -/

deriving instance DecidableEq for Except

theorem getAspectOrb_comm :
    ∀ (planetA planetB : Planet) (aspect : Aspect),
      getAspectOrb planetA planetB aspect = getAspectOrb planetB planetA aspect := by
  decide

/-! ### Claim C3 — canonical two-body transit type ids -/

/-- The lexicographically lesser of the two planet enum names (JS code-unit
order). -/
def lexLesserName (planetA planetB : Planet) : String :=
  if jsStringLt planetA.name planetB.name then planetA.name else planetB.name

/-- The lexicographically greater of the two planet enum names. -/
def lexGreaterName (planetA planetB : Planet) : String :=
  if jsStringLt planetA.name planetB.name then planetB.name else planetA.name

/-- C3: For every two distinct planets and every aspect,
`generateTransitTypeId` with subtype STANDARD is order-independent —
`generateTransitTypeId(planetA, planetB, aspect)` equals
`generateTransitTypeId(planetB, planetA, aspect)`, both being the
lexicographically lesser planet name, the aspect, and the greater planet
name joined by underscores; in particular
`typeId(Sun, Mercury, CONJUNCTION) = typeId(Mercury, Sun, CONJUNCTION)`. -/
theorem claim_C3_typeId_order_independent :
    ∀ (planetA planetB : Planet) (aspect : Aspect), planetA ≠ planetB →
      generateTransitTypeId planetA (some planetB) (some aspect) none .STANDARD =
        generateTransitTypeId planetB (some planetA) (some aspect) none .STANDARD ∧
      generateTransitTypeId planetA (some planetB) (some aspect) none .STANDARD =
        .ok (lexLesserName planetA planetB ++ "_" ++ aspect.name ++ "_" ++
          lexGreaterName planetA planetB) := by
  decide

/-- Witness for C3 at the pair named by the claim: Sun/Mercury conjunction. -/
theorem claim_C3_witness :
    generateTransitTypeId .SUN (some .MERCURY) (some .CONJUNCTION) none .STANDARD =
      generateTransitTypeId .MERCURY (some .SUN) (some .CONJUNCTION) none .STANDARD ∧
    generateTransitTypeId .SUN (some .MERCURY) (some .CONJUNCTION) none .STANDARD =
      .ok (lexLesserName .SUN .MERCURY ++ "_" ++ Aspect.name .CONJUNCTION ++ "_" ++
        lexGreaterName .SUN .MERCURY) :=
  claim_C3_typeId_order_independent .SUN .MERCURY .CONJUNCTION (by decide)

/-! ### Claim C4 — determineTransitTiming classification -/

/-- C4 (counterexample): the claim's classification
"APPLYING exactly when start ≤ now < exact" fails as soon as the window
invariant is dropped: at now = 10, exact = 20, start = 0, end = 5 the
function returns SEPARATING although start ≤ now < exact holds. -/
theorem claim_C4_counterexample :
    ¬ ((determineTransitTiming 10 20 0 5 = TransitTiming.APPLYING) ↔
      ((0 : ℚ) ≤ 10 ∧ (10 : ℚ) < 20)) := by
  decide

/-- C4 (amended): under the Transit window invariant
`start ≤ exact ≤ end`, `determineTransitTiming` returns UPCOMING exactly
when now < start, APPLYING exactly when start ≤ now < exact, and
SEPARATING exactly when now ≥ exact, including when now is past end —
there is no distinct "ended" state. -/
theorem claim_C4_timing_classification (now exact start end_ : ℚ)
    (hse : start ≤ exact) (hee : exact ≤ end_) :
    (determineTransitTiming now exact start end_ = .UPCOMING ↔ now < start) ∧
    (determineTransitTiming now exact start end_ = .APPLYING ↔ start ≤ now ∧ now < exact) ∧
    (determineTransitTiming now exact start end_ = .SEPARATING ↔ exact ≤ now) := by
  unfold determineTransitTiming
  by_cases h1 : now < start
  · simp only [if_pos h1]
    exact ⟨⟨fun _ => h1, fun _ => trivial⟩,
      ⟨fun hc => absurd hc (by decide), fun hc => absurd h1 (not_lt.mpr hc.1)⟩,
      ⟨fun hc => absurd hc (by decide), fun hc => absurd h1 (not_lt.mpr (le_trans hse hc))⟩⟩
  · simp only [if_neg h1]
    by_cases h2 : start ≤ now ∧ now ≤ end_
    · simp only [if_pos h2]
      by_cases h3 : now < exact
      · simp only [if_pos h3]
        exact ⟨⟨fun hc => absurd hc (by decide), fun hc => absurd hc h1⟩,
          ⟨fun _ => ⟨h2.1, h3⟩, fun _ => trivial⟩,
          ⟨fun hc => absurd hc (by decide), fun hc => absurd h3 (not_lt.mpr hc)⟩⟩
      · simp only [if_neg h3]
        exact ⟨⟨fun hc => absurd hc (by decide), fun hc => absurd hc h1⟩,
          ⟨fun hc => absurd hc (by decide), fun hc => absurd hc.2 h3⟩,
          ⟨fun _ => not_lt.mp h3, fun _ => trivial⟩⟩
    · simp only [if_neg h2]
      have hstart : start ≤ now := not_lt.mp h1
      have hend : end_ < now := by
        by_contra hnc
        exact h2 ⟨hstart, not_lt.mp hnc⟩
      have hex : exact ≤ now := le_of_lt (lt_of_le_of_lt hee hend)
      exact ⟨⟨fun hc => absurd hc (by decide), fun hc => absurd hc h1⟩,
        ⟨fun hc => absurd hc (by decide), fun hc => absurd hc.2 (not_lt.mpr hex)⟩,
        ⟨fun _ => hex, fun _ => trivial⟩⟩

/-- Witness for C4 at now = 1, exact = 2, start = 0, end = 3. -/
theorem claim_C4_witness :
    (determineTransitTiming 1 2 0 3 = .UPCOMING ↔ (1 : ℚ) < 0) ∧
    (determineTransitTiming 1 2 0 3 = .APPLYING ↔ (0 : ℚ) ≤ 1 ∧ (1 : ℚ) < 2) ∧
    (determineTransitTiming 1 2 0 3 = .SEPARATING ↔ (2 : ℚ) ≤ 1) :=
  claim_C4_timing_classification 1 2 0 3 (by norm_num) (by norm_num)

/-! ### Claim C5 — calculateIntensity -/

/-- C5: `calculateIntensity` returns 0 outside [start, end]; otherwise
`100·(1 − |now−exact|/(end−start))` clamped to [0, 100], with a zero-length
window yielding 100; and the result always lies in [0, 100]. -/
theorem claim_C5_intensity_spec (now exact start end_ : ℚ) :
    calculateIntensity now exact start end_ =
      (if now < start ∨ now > end_ then 0
       else if end_ = start then 100
       else max 0 (min 100 (100 * (1 - |now - exact| / (end_ - start))))) ∧
    0 ≤ calculateIntensity now exact start end_ ∧
    calculateIntensity now exact start end_ ≤ 100 := by
  unfold calculateIntensity
  by_cases h1 : now < start ∨ now > end_
  · simp only [if_pos h1]
    exact ⟨trivial, le_refl 0, by norm_num⟩
  · simp only [if_neg h1]
    by_cases h2 : end_ - start = 0
    · have h2' : end_ = start := sub_eq_zero.mp h2
      simp only [if_pos h2, if_pos h2']
      exact ⟨trivial, by norm_num, le_refl 100⟩
    · have h2' : ¬ end_ = start := fun hh => h2 (sub_eq_zero.mpr hh)
      simp only [if_neg h2, if_neg h2']
      refine ⟨?_, le_max_left 0 _, max_le (by norm_num) (min_le_left 100 _)⟩
      have hr : (100 : ℚ) - |now - exact| / (end_ - start) * 100 =
          100 * (1 - |now - exact| / (end_ - start)) := by ring
      rw [hr]

/-! ### Claim C8 — checkAspect symmetry -/

/-- C8: `checkAspect` is symmetric: for all longitudes, every aspect and
all planets, `checkAspect(a, b, aspect, p, q) = checkAspect(b, a, aspect, q, p)`. -/
theorem claim_C8_checkAspect_symmetric :
    ∀ (longitudeA longitudeB : ℚ) (aspect : Aspect) (planetA planetB : Planet),
      checkAspect longitudeA longitudeB aspect planetA planetB =
        checkAspect longitudeB longitudeA aspect planetB planetA := by
  intro a b aspect pA pB
  simp only [checkAspect]
  rw [getAspectOrb_comm pB pA aspect,
    abs_sub_comm (jsMod (jsMod b 360 + 360) 360) (jsMod (jsMod a 360 + 360) 360)]

/-! ### Claim C10 — retrograde thresholds -/

/-- C10: `isRetrograde` compares the speed against a per-planet threshold
(−0.2 for Mercury, 0 for every other planet), so Mercury with speed in
[−0.2, 0) is not reported as currently retrograde, while the
station-direction decision in the retrograde pass uses `speed < 0`
uniformly for all planets. -/
theorem claim_C10_retrograde_thresholds :
    (∀ (planet : Planet) (position : PlanetPos),
      isRetrograde planet position =
        decide (position.speed < (if planet = .MERCURY then -(1/5 : ℚ) else 0))) ∧
    (∀ position : PlanetPos, -(1/5 : ℚ) ≤ position.speed → position.speed < 0 →
      isRetrograde .MERCURY position = false) ∧
    (∀ position : PlanetPos, stationIsGoingRetrograde position = decide (position.speed < 0)) := by
  refine ⟨fun planet position => rfl, fun position h1 _ => ?_, fun position => rfl⟩
  show decide (position.speed < -(1/5 : ℚ)) = false
  exact decide_eq_false (not_lt.mpr h1)

/-- Witness for C10: Mercury moving backward at speed −0.1 — genuinely
retrograde motion — is not classified as currently retrograde. -/
theorem claim_C10_witness :
    isRetrograde .MERCURY { longitude := 0, speed := -(1/10) } = false :=
  claim_C10_retrograde_thresholds.2.1 { longitude := 0, speed := -(1/10) }
    (by norm_num) (by norm_num)

/-! ### Claim C6 — output ordering -/

theorem transitSortLE_total : ∀ a b : Transit, transitSortLE a b ∨ transitSortLE b a := by
  intro a b
  unfold transitSortLE
  rcases lt_trichotomy (timingOrderValue a.timing) (timingOrderValue b.timing) with h | h | h
  · exact .inl (.inl h)
  · rcases le_total (intensityOrZero b.intensity) (intensityOrZero a.intensity) with hi | hi
    · exact .inl (.inr ⟨h, hi⟩)
    · exact .inr (.inr ⟨h.symm, hi⟩)
  · exact .inr (.inl h)

theorem transitSortLE_trans :
    ∀ a b c : Transit, transitSortLE a b → transitSortLE b c → transitSortLE a c := by
  intro a b c hab hbc
  unfold transitSortLE at *
  rcases hab with h1 | ⟨h1, h1i⟩ <;> rcases hbc with h2 | ⟨h2, h2i⟩
  · exact .inl (lt_trans h1 h2)
  · exact .inl (lt_of_lt_of_eq h1 h2)
  · exact .inl (lt_of_eq_of_lt h1 h2)
  · exact .inr ⟨h1.trans h2, h2i.trans h1i⟩

instance : IsTotal Transit transitSortLE := ⟨transitSortLE_total⟩

instance : IsTrans Transit transitSortLE := ⟨transitSortLE_trans⟩

/-- The adjacency relation asserted by the claim: non-decreasing timing
priority, and among equal priorities non-increasing intensity. -/
def sortedAdjacent (a b : Transit) : Prop :=
  timingOrderValue a.timing ≤ timingOrderValue b.timing ∧
    (timingOrderValue a.timing = timingOrderValue b.timing →
      intensityOrZero b.intensity ≤ intensityOrZero a.intensity)

theorem sortTransits_chain (ts : List Transit) :
    (sortTransits ts).Chain' sortedAdjacent := by
  have hs : List.Sorted transitSortLE (sortTransits ts) :=
    List.sorted_insertionSort transitSortLE ts
  refine List.Chain'.imp ?_ (List.Pairwise.chain' hs)
  intro a b hab
  rcases hab with h | ⟨heq, hint⟩
  · exact ⟨le_of_lt h, fun he => absurd he (ne_of_lt h)⟩
  · exact ⟨le_of_eq heq, fun _ => hint⟩

theorem chain_of_map_sort :
    ∀ (x : Except Unit (List Transit)) (l : List Transit),
      x.map sortTransits = .ok l → l.Chain' sortedAdjacent := by
  intro x l h
  cases x with
  | error e => exact absurd h (by simp [Except.map])
  | ok ts =>
    have hl : sortTransits ts = l := by
      simpa [Except.map] using h
    rw [← hl]
    exact sortTransits_chain ts

/-- C6: every successful result of `findTransitsInRange` is sorted — for
adjacent results (a, b), with priority ACTIVE(0) < APPLYING(1) <
SEPARATING(2) < UPCOMING(3) < unclassified(4),
`priority(a.timing) ≤ priority(b.timing)`, and equal-priority entries are
non-increasing in intensity (a missing intensity counting as 0). -/
theorem claim_C6_output_sorted :
    ∀ (o : Oracle) (env : Option String) (now startDate endDate : ℚ)
      (filteredPlanets : Option (List Planet)) (l : List Transit),
      findTransitsInRange o env now startDate endDate filteredPlanets = .ok l →
      l.Chain' sortedAdjacent := by
  intro o env now s e fp l h
  unfold findTransitsInRange at h
  by_cases hr : e ≤ s
  · rw [if_pos hr] at h
    injection h with h
    rw [← h]
    exact List.chain'_nil
  · rw [if_neg hr] at h
    exact chain_of_map_sort _ l h

/-- A constant benign oracle used by witnesses. -/
def oracleZero : Oracle := fun _ _ => .ok { longitude := 0, speed := 0 }

set_option maxRecDepth 8000 in
/-- Witness for C6: an empty planet filter yields the (trivially sorted)
empty result. -/
theorem claim_C6_witness : List.Chain' sortedAdjacent [] :=
  claim_C6_output_sorted oracleZero (some "production") 0 0 1 (some []) []
    (by decide)

/-! ### Claim C1 — a single oracle failure aborts the whole query -/

/-- Timestamp 2024-01-15T10:00:00Z used by the concrete scenarios. -/
def tNow : ℚ := 1705312800000

/-- An oracle that fails on exactly one call — Mercury at the current
instant `tNow`; every other (planet, moment) combination succeeds. -/
def oracleFailMercuryAtNow : Oracle := fun p t =>
  if p = .MERCURY ∧ t = tNow then .error ()
  else .ok (if p = .MOON then { longitude := 37, speed := 0 } else { longitude := 0, speed := 0 })

/-- The same oracle with the single failure repaired. -/
def oracleAllOk : Oracle := fun p _ =>
  .ok (if p = .MOON then { longitude := 37, speed := 0 } else { longitude := 0, speed := 0 })

/-- Number of transits of a successful result (0 for a thrown error). -/
def okLength : Except Unit (List Transit) → ℕ
  | .ok l => l.length
  | .error _ => 0

set_option maxRecDepth 20000 in
set_option maxHeartbeats 2000000 in
/-- C1 (refuting the claim; the code, not the claim, is at fault): the
final Mercury-retrograde guard queries the oracle outside every
`try`/`catch`, so an oracle that fails on the single call
(Mercury, now) makes the whole query throw and discards the results of
every other combination — here the two sign-snapshot transits that the
same query returns once the single failure is repaired. -/
theorem claim_C1_single_failure_aborts_query :
    findTransitsInRange oracleFailMercuryAtNow (some "production") tNow
      (tNow - 86400000) (tNow + 86400000) (some [.SUN, .MOON]) = .error () ∧
    okLength (findTransitsInRange oracleAllOk (some "production") tNow
      (tNow - 86400000) (tNow + 86400000) (some [.SUN, .MOON])) = 2 := by
  exact ⟨by decide, by decide⟩

/-! ### Claim C2 — the window invariant startDate ≤ exactDate ≤ endDate -/

/-- An oracle placing the Moon at 28° of Aries (late in a sign), constant
in time; every call succeeds. -/
def oracleMoonLate : Oracle := fun p _ =>
  .ok (if p = .MOON then { longitude := 28, speed := 0 } else { longitude := 0, speed := 0 })

/-- Whether a transit violates `startDate ≤ exactDate ≤ endDate`. -/
def violatesWindow (t : Transit) : Bool :=
  decide (t.exactDate < t.startDate) || decide (t.endDate < t.exactDate)

/-- Whether a successful result contains a record violating the window
invariant. -/
def hasWindowViolation : Except Unit (List Transit) → Bool
  | .ok l => l.any violatesWindow
  | .error _ => false

set_option maxRecDepth 20000 in
set_option maxHeartbeats 2000000 in
/-- C2 (refuting the claim; the code, not the claim, is at fault): with the
Moon at 28° of a sign on 2024-01-15, the "currently moving through sign"
snapshot that `findTransitsInRange` emits has `endDate < exactDate`:
`setDate` truncates the fractional day offsets (2.333 days back, then
2.5 days forward), landing the end of the estimated dwell window one day
before the `exactDate` anchor. -/
theorem claim_C2_window_invariant_violated :
    hasWindowViolation (findTransitsInRange oracleMoonLate (some "production") tNow
      (tNow - 86400000) (tNow + 86400000) (some [.MOON])) = true := by
  decide

/-! ### Claim C9 — getSampleTransits graceful degradation -/

/-- C9: `getSampleTransits` always returns a non-empty list: at least 3
real transits are returned as-is; fewer than 3 are padded with the fixed
illustrative catalog (and capped at 5); and when the transit computation
throws, the wholly static catalog is substituted instead of propagating
the error. -/
theorem claim_C9_sample_transits_graceful :
    ∀ (o : Oracle) (env : Option String) (now date : ℚ),
      (∃ l, getSampleTransits o env now date = .ok l ∧ 0 < l.length) ∧
      (∀ r, getCurrentTransits o env now date 5 = .ok r → 3 ≤ r.length →
        getSampleTransits o env now date = .ok r) ∧
      (∀ r, getCurrentTransits o env now date 5 = .ok r → r.length < 3 →
        getSampleTransits o env now date =
          .ok ((r ++ samplePadTransits date "MARS_Square_SUN" "JUPITER_Trine_VENUS").take 5)) ∧
      (getCurrentTransits o env now date 5 = .error () →
        getSampleTransits o env now date =
          .ok (fallbackTransits date "MERCURY_Conjunction_VENUS" "MOON_Opposition_SATURN"
            "JUPITER_Trine_SUN")) := by
  intro o env now date
  have hpad1 : generateTransitTypeId .SUN (some .MARS) (some .SQUARE) = .ok "MARS_Square_SUN" := by
    decide
  have hpad2 : generateTransitTypeId .VENUS (some .JUPITER) (some .TRINE) = .ok "JUPITER_Trine_VENUS" := by
    decide
  have hfb1 : generateTransitTypeId .MERCURY (some .VENUS) (some .CONJUNCTION) =
      .ok "MERCURY_Conjunction_VENUS" := by decide
  have hfb2 : generateTransitTypeId .MOON (some .SATURN) (some .OPPOSITION) =
      .ok "MOON_Opposition_SATURN" := by decide
  have hfb3 : generateTransitTypeId .SUN (some .JUPITER) (some .TRINE) =
      .ok "JUPITER_Trine_SUN" := by decide
  have part2 : ∀ r, getCurrentTransits o env now date 5 = .ok r → 3 ≤ r.length →
      getSampleTransits o env now date = .ok r := by
    intro r hr h3
    simp only [getSampleTransits, hr]
    rw [if_pos h3]
  have part3 : ∀ r, getCurrentTransits o env now date 5 = .ok r → r.length < 3 →
      getSampleTransits o env now date =
        .ok ((r ++ samplePadTransits date "MARS_Square_SUN" "JUPITER_Trine_VENUS").take 5) := by
    intro r hr hlt
    simp only [getSampleTransits, hr, hpad1, hpad2]
    rw [if_neg (not_le.mpr hlt)]
  have part4 : getCurrentTransits o env now date 5 = .error () →
      getSampleTransits o env now date =
        .ok (fallbackTransits date "MERCURY_Conjunction_VENUS" "MOON_Opposition_SATURN"
          "JUPITER_Trine_SUN") := by
    intro herr
    simp only [getSampleTransits, herr, hfb1, hfb2, hfb3]
  refine ⟨?_, part2, part3, part4⟩
  cases hc : getCurrentTransits o env now date 5 with
  | error e =>
    cases e
    refine ⟨_, part4 hc, ?_⟩
    simp [fallbackTransits]
  | ok r =>
    by_cases h3 : 3 ≤ r.length
    · exact ⟨r, part2 r hc h3, lt_of_lt_of_le (by norm_num) h3⟩
    · refine ⟨_, part3 r hc (not_le.mp h3), ?_⟩
      rw [List.length_take, List.length_append]
      have : (samplePadTransits date "MARS_Square_SUN" "JUPITER_Trine_VENUS").length = 2 := by
        simp [samplePadTransits]
      omega

/-- An oracle that fails on every call. -/
def oracleAllFail : Oracle := fun _ _ => .error ()

set_option maxRecDepth 20000 in
/-- Witness for C9: with an oracle that throws on every call, the transit
computation itself throws (see C1), and `getSampleTransits` still returns
the non-empty static catalog. -/
theorem claim_C9_witness :
    getSampleTransits oracleAllFail (some "production") 0 0 =
      .ok (fallbackTransits 0 "MERCURY_Conjunction_VENUS" "MOON_Opposition_SATURN"
        "JUPITER_Trine_SUN") :=
  (claim_C9_sample_transits_graceful oracleAllFail (some "production") 0 0).2.2.2
    (by decide)

/-! ### Claim C7 — the coarse-grid exact-moment search -/

/-- The index at which the scan stops: the first of the `steps+1` grid
indices whose residual is below 0.1°, or the last index `steps` when none
is. -/
def earlyStopIdx (rs : ℕ → ℚ) (steps : ℕ) : ℕ :=
  (((List.range (steps + 1)).find? (fun i => decide (rs i < 1/10))).getD steps)

/-- The claim's description of `findExactAspectDate`, written over the
residual sequence `rs` of the `steps+1` evenly spaced sample moments:
scan the samples in order up to the early-stop index, take the minimal
residual over that scanned prefix and the first sampled moment attaining
it, and report no moment when the minimal residual exceeds 1.0°. -/
def exactMomentSpec (rs : ℕ → ℚ) (startDate timeStep : ℚ) (steps : ℕ) : Option ℚ :=
  let scanned := List.range (earlyStopIdx rs steps + 1)
  let best := (scanned.map rs).foldl min (rs 0)
  let bestIdx := (scanned.find? (fun i => decide (rs i ≤ best))).getD 0
  if best > 1 then none else some (startDate + (bestIdx : ℚ) * timeStep)

/-- One strict-improvement update of the (minimal residual, its moment)
tracker, at sample index `i`. -/
def scanStep (rs g : ℕ → ℚ) (acc : ℚ × ℚ) (i : ℕ) : ℚ × ℚ :=
  (if rs i < acc.1 then rs i else acc.1, if rs i < acc.1 then g i else acc.2)

/-- The oracle-free image of `exactScan` over an explicit index list. -/
def pureScanL (rs g : ℕ → ℚ) : List ℕ → ℚ × ℚ → ℚ × ℚ
  | [], acc => acc
  | i :: is, acc =>
    if rs i < 1/10 then scanStep rs g acc i
    else pureScanL rs g is (scanStep rs g acc i)

/-- The prefix of an index list actually visited by the scan: everything
up to and including the first early-stop hit. -/
def scannedPrefix (rs : ℕ → ℚ) : List ℕ → List ℕ
  | [] => []
  | i :: is => if rs i < 1/10 then [i] else i :: scannedPrefix rs is

theorem jsMod360_bounds (x : ℚ) (hx : 0 ≤ x) : 0 ≤ jsMod x 360 ∧ jsMod x 360 < 360 := by
  have htr : truncQ (x / 360) = ⌊x / 360⌋ := by
    unfold truncQ
    rw [if_pos (div_nonneg hx (by norm_num))]
  unfold jsMod
  rw [htr]
  have h1 : ((⌊x / 360⌋ : ℤ) : ℚ) ≤ x / 360 := Int.floor_le _
  have h2 : x / 360 < ((⌊x / 360⌋ : ℤ) : ℚ) + 1 := Int.lt_floor_add_one _
  have hxq : x = 360 * (x / 360) := by field_simp
  constructor
  · nlinarith [h1, h2]
  · nlinarith [h1, h2]

theorem aspectResidual_le (longA longB : ℚ) (aspect : Aspect) :
    aspectResidual longA longB aspect ≤ 180 := by
  obtain ⟨hm0, hm1⟩ := jsMod360_bounds |longA - longB| (abs_nonneg _)
  have ht0 : 0 ≤ aspectAngle aspect := by cases aspect <;> norm_num [aspectAngle]
  have ht1 : aspectAngle aspect ≤ 180 := by cases aspect <;> norm_num [aspectAngle]
  simp only [aspectResidual]
  by_cases hgt : jsMod |longA - longB| 360 > 180
  · rw [if_pos hgt, abs_sub_le_iff]
    constructor <;> linarith
  · rw [if_neg hgt, abs_sub_le_iff]
    constructor <;> linarith

theorem rs_le_of_residualAt_ok {o : Oracle} {pA pB : Planet} {aspect : Aspect} {t r : ℚ}
    (h : residualAt o pA pB aspect t = .ok r) : r ≤ 180 := by
  unfold residualAt at h
  cases h1 : getPlanetPositionAtDate o pA t with
  | error e => rw [h1] at h; exact absurd h (by simp)
  | ok posA =>
    cases h2 : getPlanetPositionAtDate o pB t with
    | error e => rw [h1, h2] at h; exact absurd h (by simp)
    | ok posB =>
      rw [h1, h2] at h
      injection h with h
      rw [← h]
      exact aspectResidual_le _ _ _

theorem exactScan_eq_pure (o : Oracle) (pA pB : Planet) (aspect : Aspect)
    (s step : ℚ) (steps : ℕ) (rs : ℕ → ℚ)
    (hrs : ∀ i, i ≤ steps → residualAt o pA pB aspect (s + (i : ℚ) * step) = .ok (rs i)) :
    ∀ (fuel i : ℕ) (cd cD : ℚ), fuel + i = steps + 1 →
      exactScan o pA pB aspect s step fuel i cd cD =
        .ok (pureScanL rs (fun j => s + (j : ℚ) * step) (List.range' i fuel) (cd, cD)) := by
  intro fuel
  induction fuel with
  | zero => intro i cd cD _; rfl
  | succ n ih =>
    intro i cd cD h
    have hi : i ≤ steps := by omega
    rw [List.range'_succ]
    simp only [exactScan, pureScanL, hrs i hi]
    by_cases hb : rs i < 1/10
    · rw [if_pos hb, if_pos hb]
      rfl
    · rw [if_neg hb, if_neg hb]
      exact ih (i + 1) _ _ (by omega)

theorem pureScanL_eq_foldl (rs g : ℕ → ℚ) :
    ∀ (l : List ℕ) (acc : ℚ × ℚ),
      pureScanL rs g l acc = (scannedPrefix rs l).foldl (scanStep rs g) acc := by
  intro l
  induction l with
  | nil => intro acc; rfl
  | cons i is ih =>
    intro acc
    simp only [pureScanL, scannedPrefix]
    by_cases h : rs i < 1/10
    · rw [if_pos h, if_pos h]
      rfl
    · rw [if_neg h, if_neg h, List.foldl_cons]
      exact ih _

theorem scannedPrefix_map (rs : ℕ → ℚ) (f : ℕ → ℕ) :
    ∀ l : List ℕ,
      scannedPrefix rs (l.map f) = (scannedPrefix (fun x => rs (f x)) l).map f := by
  intro l
  induction l with
  | nil => rfl
  | cons i is ih =>
    rw [List.map_cons]
    simp only [scannedPrefix]
    by_cases h : rs (f i) < 1/10
    · rw [if_pos h, if_pos h]
      rfl
    · rw [if_neg h, if_neg h, List.map_cons, ih]

theorem scannedPrefix_range :
    ∀ (n : ℕ) (rs : ℕ → ℚ),
      scannedPrefix rs (List.range (n + 1)) =
        List.range ((((List.range (n + 1)).find? (fun i => decide (rs i < 1/10))).getD n) + 1) := by
  intro n
  induction n with
  | zero =>
    intro rs
    have h1 : List.range 1 = [0] := rfl
    rw [h1]
    simp only [scannedPrefix, List.find?]
    by_cases h : rs 0 < 1/10
    · rw [if_pos h, decide_eq_true h]
      rfl
    · rw [if_neg h, decide_eq_false h]
      rfl
  | succ n ih =>
    intro rs
    rw [List.range_succ_eq_map (n + 1)]
    simp only [scannedPrefix]
    by_cases h0 : rs 0 < 1/10
    · rw [if_pos h0]
      rw [@List.find?_cons_of_pos ℕ (fun i => decide (rs i < 1/10)) 0
        (List.map Nat.succ (List.range (n + 1))) (decide_eq_true h0)]
      rfl
    · rw [if_neg h0]
      rw [scannedPrefix_map rs Nat.succ (List.range (n + 1))]
      rw [ih (fun x => rs (Nat.succ x))]
      rw [@List.find?_cons_of_neg ℕ (fun i => decide (rs i < 1/10)) 0
        (List.map Nat.succ (List.range (n + 1))) (fun hc => h0 (of_decide_eq_true hc))]
      rw [List.find?_map]
      simp only [Function.comp_def]
      cases hf : (List.range (n + 1)).find? (fun x => decide (rs (Nat.succ x) < 1/10)) with
      | none => simp [List.range_succ_eq_map]
      | some j => simp [List.range_succ_eq_map]

theorem foldl_min_le_init : ∀ (l : List ℚ) (c : ℚ), l.foldl min c ≤ c := by
  intro l
  induction l with
  | nil => intro c; exact le_refl c
  | cons v vs ih =>
    intro c
    rw [List.foldl_cons]
    exact le_trans (ih (min c v)) (min_le_left c v)

theorem foldl_min_le_mem : ∀ (l : List ℚ) (c x : ℚ), x ∈ l → l.foldl min c ≤ x := by
  intro l
  induction l with
  | nil => intro c x hx; exact absurd hx (List.not_mem_nil x)
  | cons v vs ih =>
    intro c x hx
    rw [List.foldl_cons]
    rcases List.mem_cons.mp hx with h | h
    · subst h
      exact le_trans (foldl_min_le_init vs (min c x)) (min_le_right c x)
    · exact ih (min c v) x h

theorem foldl_min_eq_init : ∀ (l : List ℚ) (c : ℚ), (∀ v ∈ l, c ≤ v) → l.foldl min c = c := by
  intro l
  induction l with
  | nil => intro c _; rfl
  | cons v vs ih =>
    intro c hc
    rw [List.foldl_cons, min_eq_left (hc v (List.mem_cons_self v vs))]
    exact ih c (fun w hw => hc w (List.mem_cons_of_mem v hw))

theorem foldl_min_mem_or_init : ∀ (l : List ℚ) (c : ℚ), l.foldl min c = c ∨ l.foldl min c ∈ l := by
  intro l
  induction l with
  | nil => intro c; exact .inl rfl
  | cons v vs ih =>
    intro c
    rw [List.foldl_cons]
    rcases ih (min c v) with h | h
    · rw [h]
      rcases le_total c v with hcv | hvc
      · exact .inl (min_eq_left hcv)
      · exact .inr (by rw [min_eq_right hvc]; exact List.mem_cons_self v vs)
    · exact .inr (List.mem_cons_of_mem v h)

theorem foldl_scanStep_characterize (rs g : ℕ → ℚ) :
    ∀ (l : List ℕ) (cd cD : ℚ),
      (l.foldl (scanStep rs g) (cd, cD)).1 = (l.map rs).foldl min cd ∧
      (l.foldl (scanStep rs g) (cd, cD)).2 =
        (if ∃ x ∈ l, rs x < cd then
          (match l.find? (fun x => decide (rs x ≤ (l.map rs).foldl min cd)) with
           | some x => g x
           | none => cD)
         else cD) := by
  intro l
  induction l with
  | nil =>
    intro cd cD
    exact ⟨rfl, by simp⟩
  | cons a l' ih =>
    intro cd cD
    rw [List.foldl_cons, List.map_cons, List.foldl_cons]
    by_cases ha : rs a < cd
    · have hstep : scanStep rs g (cd, cD) a = (rs a, g a) := by
        simp [scanStep, ha]
      rw [hstep, min_eq_right (le_of_lt ha)]
      obtain ⟨ih1, ih2⟩ := ih (rs a) (g a)
      refine ⟨ih1, ?_⟩
      rw [ih2]
      have hobv : ∃ x ∈ a :: l', rs x < cd := ⟨a, List.mem_cons_self a l', ha⟩
      rw [if_pos hobv]
      by_cases hex : ∃ x ∈ l', rs x < rs a
      · rw [if_pos hex]
        obtain ⟨x0, hx0m, hx0⟩ := hex
        have hmlt : (l'.map rs).foldl min (rs a) < rs a :=
          lt_of_le_of_lt (foldl_min_le_mem _ _ _ (List.mem_map_of_mem rs hx0m)) hx0
        rw [@List.find?_cons_of_neg ℕ
          (fun x => decide (rs x ≤ (l'.map rs).foldl min (rs a))) a l'
          (by simp [not_le.mpr hmlt])]
        cases hfind : List.find?
            (fun x => decide (rs x ≤ List.foldl min (rs a) (List.map rs l'))) l' with
        | some x => rfl
        | none =>
          exfalso
          rw [List.find?_eq_none] at hfind
          rcases foldl_min_mem_or_init (List.map rs l') (rs a) with hcase | hcase
          · exact absurd hcase (ne_of_lt hmlt)
          · obtain ⟨x, hxm, hxe⟩ := List.mem_map.mp hcase
            have hx' : ¬ rs x ≤ List.foldl min (rs a) (List.map rs l') := by
              simpa using hfind x hxm
            exact hx' (le_of_eq hxe)
      · rw [if_neg hex]
        push_neg at hex
        have hmeq : (l'.map rs).foldl min (rs a) = rs a := by
          apply foldl_min_eq_init
          intro v hv
          obtain ⟨x, hxm, rfl⟩ := List.mem_map.mp hv
          exact hex x hxm
        rw [@List.find?_cons_of_pos ℕ
          (fun x => decide (rs x ≤ (l'.map rs).foldl min (rs a))) a l'
          (by simp [hmeq])]
    · have hstep : scanStep rs g (cd, cD) a = (cd, cD) := by
        simp [scanStep, ha]
      rw [hstep, min_eq_left (not_lt.mp ha)]
      obtain ⟨ih1, ih2⟩ := ih cd cD
      refine ⟨ih1, ?_⟩
      rw [ih2]
      by_cases hex : ∃ x ∈ l', rs x < cd
      · have hobv : ∃ x ∈ a :: l', rs x < cd := by
          obtain ⟨x, hxm, hx⟩ := hex
          exact ⟨x, List.mem_cons_of_mem a hxm, hx⟩
        rw [if_pos hex, if_pos hobv]
        obtain ⟨x0, hx0m, hx0⟩ := hex
        have hmlt : (l'.map rs).foldl min cd < cd :=
          lt_of_le_of_lt (foldl_min_le_mem _ _ _ (List.mem_map_of_mem rs hx0m)) hx0
        have hnle : ¬ rs a ≤ (l'.map rs).foldl min cd := fun hc =>
          ha (lt_of_le_of_lt hc hmlt)
        rw [@List.find?_cons_of_neg ℕ
          (fun x => decide (rs x ≤ (l'.map rs).foldl min cd)) a l'
          (by simp [hnle])]
      · have hobv : ¬ ∃ x ∈ a :: l', rs x < cd := by
          rintro ⟨x, hxm, hx⟩
          rcases List.mem_cons.mp hxm with rfl | hxm'
          · exact ha hx
          · exact hex ⟨x, hxm', hx⟩
        rw [if_neg hex, if_neg hobv]

/-- C7: outside test mode, and with the oracle succeeding on the whole
sample grid (`rs` being the residual at each of the `steps+1` evenly
spaced moments of [start, end]), `findExactAspectDate` samples those
moments in order, tracks the first sampled moment of minimal residual,
stops scanning early once a residual below 0.1° is found, and returns no
moment whenever the minimal residual over the scan exceeds 1.0° — that
is, it returns exactly `exactMomentSpec` of the residual sequence. -/
theorem claim_C7_exact_moment_search
    (o : Oracle) (env : Option String) (planetA planetB : Planet) (aspect : Aspect)
    (startDate endDate : ℚ) (steps : ℕ) (rs : ℕ → ℚ)
    (henv : env ≠ some "test")
    (hrs : ∀ i, i ≤ steps →
      residualAt o planetA planetB aspect
        (startDate + (i : ℚ) * ((endDate - startDate) / (steps : ℚ))) = .ok (rs i)) :
    findExactAspectDate o env planetA planetB aspect startDate endDate steps =
      .ok (exactMomentSpec rs startDate ((endDate - startDate) / (steps : ℚ)) steps) := by
  have hbound : ∀ i, i ≤ steps → rs i ≤ 180 := fun i hi => rs_le_of_residualAt_ok (hrs i hi)
  have hk : earlyStopIdx rs steps ≤ steps := by
    unfold earlyStopIdx
    cases hf : (List.range (steps + 1)).find? (fun i => decide (rs i < 1/10)) with
    | none => exact le_refl steps
    | some j =>
      have hj := List.mem_range.mp (List.mem_of_find?_eq_some hf)
      simpa using Nat.lt_succ_iff.mp hj
  have h0mem : 0 ∈ List.range (earlyStopIdx rs steps + 1) :=
    List.mem_range.mpr (Nat.succ_pos _)
  have hb0 : rs 0 ≤ 180 := hbound 0 (Nat.zero_le _)
  simp only [findExactAspectDate]
  rw [if_neg henv]
  rw [exactScan_eq_pure o planetA planetB aspect startDate
    ((endDate - startDate) / (steps : ℚ)) steps rs hrs (steps + 1) 0 360 startDate
    (by omega)]
  have hscanned : scannedPrefix rs (List.range (steps + 1)) =
      List.range (earlyStopIdx rs steps + 1) := by
    rw [scannedPrefix_range steps rs]
    rfl
  have hP : pureScanL rs (fun j => startDate + (j : ℚ) * ((endDate - startDate) / (steps : ℚ)))
      (List.range' 0 (steps + 1)) (360, startDate) =
      (List.range (earlyStopIdx rs steps + 1)).foldl
        (scanStep rs (fun j => startDate + (j : ℚ) * ((endDate - startDate) / (steps : ℚ))))
        (360, startDate) := by
    rw [← List.range_eq_range', pureScanL_eq_foldl, hscanned]
  rw [hP]
  obtain ⟨hc1, hc2⟩ := foldl_scanStep_characterize rs
    (fun j => startDate + (j : ℚ) * ((endDate - startDate) / (steps : ℚ)))
    (List.range (earlyStopIdx rs steps + 1)) 360 startDate
  simp only [Except.map]
  rw [hc1, hc2]
  have hminswap : ((List.range (earlyStopIdx rs steps + 1)).map rs).foldl min 360 =
      ((List.range (earlyStopIdx rs steps + 1)).map rs).foldl min (rs 0) := by
    rw [List.range_succ_eq_map, List.map_cons, List.foldl_cons, List.foldl_cons]
    rw [min_eq_right (le_trans hb0 (by norm_num)), min_self]
  rw [hminswap]
  have hex360 : ∃ x ∈ List.range (earlyStopIdx rs steps + 1), rs x < 360 :=
    ⟨0, h0mem, lt_of_le_of_lt hb0 (by norm_num)⟩
  rw [if_pos hex360]
  simp only [exactMomentSpec]
  cases hfind : (List.range (earlyStopIdx rs steps + 1)).find?
      (fun i => decide (rs i ≤ ((List.range (earlyStopIdx rs steps + 1)).map rs).foldl min (rs 0))) with
  | some b => rfl
  | none =>
    exfalso
    rw [List.find?_eq_none] at hfind
    rcases foldl_min_mem_or_init ((List.range (earlyStopIdx rs steps + 1)).map rs) (rs 0)
      with hcase | hcase
    · have hni : ¬ rs 0 ≤ ((List.range (earlyStopIdx rs steps + 1)).map rs).foldl min (rs 0) := by
        simpa using hfind 0 h0mem
      exact hni (le_of_eq hcase.symm)
    · obtain ⟨x, hxm, hxe⟩ := List.mem_map.mp hcase
      have hni : ¬ rs x ≤ ((List.range (earlyStopIdx rs steps + 1)).map rs).foldl min (rs 0) := by
        simpa using hfind x hxm
      exact hni (le_of_eq hxe)

/-- Witness for C7: a constant-position oracle makes every residual of a
conjunction search zero; the scan stops at the very first sample and
returns the range start. -/
theorem claim_C7_witness :
    findExactAspectDate oracleZero (some "production") .SUN .MOON .CONJUNCTION
      0 1728000000 20 =
      .ok (exactMomentSpec (fun _ => 0) 0 ((1728000000 - 0) / (20 : ℚ)) 20) :=
  claim_C7_exact_moment_search oracleZero (some "production") .SUN .MOON .CONJUNCTION
    0 1728000000 20 (fun _ => 0) (by decide) (fun i _ => rfl)
